import Mathlib

/-!
# kumaKUMA: the bear-detection loop of `script.js`

A shallow embedding of `script.js`.  The page's mutable globals and the DOM
properties the script writes are fields of `State` and `Dom`.  Each `async`
function is cut at its `await`s: the piece that runs when the function is
called and one piece per resumption, every piece being a pure function on
`State`.  What an invocation is left waiting for is a `Task`; the event loop
is the relation "some pending task completes with some outcome" (`step`).

JavaScript numbers (scores, box coordinates) are taken as rationals and the
arithmetic on them is exact, where the engine computes on doubles; this shows
only in the digits of the percentages and in the label position, which none of
the properties below reads.

In the event loop a remote detect call ends in one of three ways: it rejects,
it resolves with a list of detections, or it resolves with a value that is not
an array (`detectWithYolo` hands on any truthy `data.predictions`).  Arrays
whose items are not detections are outside the model.  What `detectWithYolo`
makes of an HTTP response is described apart, on `JsVal`.

Every pending `loadedMetadata` may complete.  In the page a later
`setupCamera` replaces `video.onloadedmetadata`, so that an earlier start
still waiting for it never resumes: there the model has runs the page has
not.
-/

namespace Kuma

/-! ## Detections and the render pass -/

/-- One element of a predictions array: `{class, score, bbox: [x, y, width, height]}`. -/
structure Prediction where
  «class» : String
  score : ℚ
  bbox : ℚ × ℚ × ℚ × ℚ

/-- The function `Math.round`: the nearest integer, halves going up, here of the exact
value (the engine rounds the double `p.score * 100`, which can fall on the
other side of a half: 57 for a score of 0.575, where this gives 58). -/
def mathRound (x : ℚ) : ℤ := ⌊x + 1 / 2⌋

/-- What has been painted on `canvas` since it was last cleared. -/
inductive CanvasOp where
  /-- A call `ctx.strokeRect(x, y, width, height)` in red, line width 4. -/
  | strokeRect (x y width height : ℚ)
  /-- A call `ctx.fillText(text, x, y)` in red, 24px. -/
  | fillText (text : String) (x y : ℚ)

/-- The DOM properties the script reads or writes. -/
structure Dom where
  /-- The property `debugView.innerText` -/
  debugText : String
  /-- the strokes on `canvas` -/
  canvas : List CanvasOp
  /-- The properties `canvas.width` and `canvas.height` -/
  canvasSize : ℕ × ℕ
  /-- The property `warningDiv.style.display`: `true` is `'block'`, `false` is `'none'` -/
  warningDisplay : Bool
  /-- how often `alertSound.play()` has been called -/
  playCalls : ℕ
  /-- The property `startStopBtn.textContent` -/
  btnText : String
  /-- whether `startStopBtn.classList` holds `'running'` -/
  btnRunning : Bool
  /-- The property `loadingDiv.innerText` -/
  loadingText : String
  /-- The property `loadingDiv.style.display`: `true` is `'block'`, `false` is `'none'` -/
  loadingDisplay : Bool
  /-- The property `yoloStatusDiv.textContent` -/
  yoloStatusText : String
  /-- The property `yoloStatusDiv.className` -/
  yoloStatusClass : String
  /-- whether `video.srcObject` is set -/
  videoSrc : Bool
  /-- whether the camera tracks are live (not stopped) -/
  tracksLive : Bool

/-- One line of the debug view, as built by the template literal in `renderPredictions`. -/
def debugLine (p : Prediction) : String :=
  p.«class» ++ " (" ++ toString (mathRound (p.score * 100)) ++ "%)"

/-- The two drawing calls made for a prediction of class `bear`. -/
def drawBear (prediction : Prediction) : List CanvasOp :=
  match prediction.bbox with
  | (x, y, width, height) =>
    [CanvasOp.strokeRect x y width height,
     CanvasOp.fillText ("クマ (" ++ toString (mathRound (prediction.score * 100)) ++ "%)")
       x (if y > 20 then y - 5 else 20)]

/-- The body of the `predictions.forEach` callback, acting on `bearDetected`
and on the canvas. -/
def renderEach (acc : Bool × List CanvasOp) (prediction : Prediction) : Bool × List CanvasOp :=
  if prediction.«class» = "bear" then (true, acc.2 ++ drawBear prediction) else acc

/-- The function `renderPredictions(predictions)`. -/
def renderPredictions (predictions : List Prediction) (d : Dom) : Dom :=
  let d1 : Dom :=
    if predictions.length > 0 then
      { d with debugText := "\n".intercalate (predictions.map debugLine) }
    else
      { d with debugText := "何も検出されていません..." }
  -- `ctx.clearRect(0, 0, canvas.width, canvas.height)` and `let bearDetected = false`
  let r := predictions.foldl renderEach (false, [])
  let d2 : Dom := { d1 with canvas := r.2 }
  if r.1 then
    { d2 with warningDisplay := true, playCalls := d2.playCalls + 1 }
  else
    { d2 with warningDisplay := false }

/-- The render passes of a sequence of detection results, first result first. -/
def renderAll (results : List (List Prediction)) (d : Dom) : Dom :=
  results.foldl (fun acc predictions => renderPredictions predictions acc) d

/-- The spec's `AlertState` of a result: Active (`true`) iff some detection
has the target class. -/
def alertActive (predictions : List Prediction) : Bool :=
  predictions.any (fun p => p.«class» == "bear")

/-- The spec's Clear→Active edges of a sequence of alert states that starts
from the state `prev`. -/
def clearToActive (prev : Bool) : List Bool → ℕ
  | [] => 0
  | a :: rest => (if !prev && a then 1 else 0) + clearToActive a rest

/-! ## The remote backend: `detectWithYolo` -/

/-- A JavaScript value as `response.json()` can produce it, plus `undefined`
(the value of a property that is not there). -/
inductive JsVal where
  | undefined
  | null
  | bool (b : Bool)
  | num (q : ℚ)
  | str (s : String)
  | arr (items : List JsVal)
  | obj (props : List (String × JsVal))

/-- JavaScript truthiness, as `||` tests it. -/
def JsVal.truthy : JsVal → Bool
  | .undefined => false
  | .null => false
  | .bool b => b
  | .num q => q != 0
  | .str s => s != ""
  | .arr _ => true
  | .obj _ => true

/-- The value of `data.predictions`; `none` is the `TypeError` of reading a property of
`null` or `undefined`.  Numbers, booleans, strings and arrays have no such
property. -/
def JsVal.predictions : JsVal → Option JsVal
  | .undefined => none
  | .null => none
  | .obj props => some ((props.lookup "predictions").getD .undefined)
  | _ => some .undefined

/-- An HTTP response: its status and its body as `response.json()` parses it
(`none` when the body is not JSON, so that `response.json()` rejects). -/
structure Response where
  status : ℕ
  json : Option JsVal

/-- The property `response.ok`: a status in the range 200-299. -/
def Response.ok (r : Response) : Bool := 200 ≤ r.status && r.status ≤ 299

/-- How a `fetch` ends: rejected (network failure) or resolved with a response. -/
inductive FetchResult where
  | networkError
  | response (r : Response)

/-- The function `detectWithYolo()`, as a function of what `toBlob` hands to its callback
(`blob = false` is a null blob) and of how the `fetch` of `YOLO_API_URL` ends:
`Except.ok v` is `resolve(v)`, `Except.error` is `reject`. -/
def detectWithYolo (blob : Bool) (fetched : FetchResult) : Except String JsVal :=
  if !blob then .error "Canvas to Blob conversion failed."
  else
    match fetched with
    | .networkError => .error "fetch failed"
    | .response response =>
      if !response.ok then
        .error ("Server responded with status " ++ toString response.status)
      else
        match response.json with
        | none => .error "response.json() rejected"
        | some data =>
          match data.predictions with
          | none => .error "TypeError"
          | some predictions => .ok (if predictions.truthy then predictions else .arr [])

/-! ## Globals, pending work and the event loop -/

/-- What a suspended invocation is waiting for. -/
inductive Task where
  /-- The `checkYoloServer()` called by the `DOMContentLoaded` listener, at its `fetch` -/
  | startupCheck
  /-- An invocation of `toggleDetection` inside `setupCamera`, at `getUserMedia`; its
  rejection also stands for the error `setupCamera` throws when the browser has
  no `getUserMedia` -/
  | getUserMedia
  /-- An invocation of `toggleDetection` inside `setupCamera`, waiting for
  `video.onloadedmetadata` -/
  | loadedMetadata
  /-- An invocation of `toggleDetection` at `await cocoSsd.load()` -/
  | modelLoad
  /-- A `setTimeout(detectFrame, ms)` not yet fired -/
  | timeout (ms : ℕ)
  /-- A `requestAnimationFrame(detectFrame)` not yet fired -/
  | animationFrame
  /-- An invocation of `detectFrame` at `await cocoModel.detect(video)` -/
  | cocoDetect
  /-- An invocation of `detectFrame` at `await detectWithYolo()` -/
  | yoloDetect
  /-- An invocation of `detectFrame` in its `catch`, at `await checkYoloServer()` -/
  | yoloRecheck
  deriving DecidableEq

/-- The script's globals, the DOM, the pending work and counters of the calls
made to the collaborators. -/
structure State where
  isDetecting : Bool
  /-- whether `cocoModel` is non-null -/
  cocoModel : Bool
  /-- whether `videoStream` is non-null -/
  videoStream : Bool
  /-- The value `modelSelector.value` -/
  modelSelector : String
  dom : Dom
  /-- suspended invocations and scheduled callbacks -/
  tasks : List Task
  /-- calls of `checkYoloServer` -/
  checkCalls : ℕ
  /-- calls of `detectWithYolo` -/
  yoloCalls : ℕ
  /-- calls of `cocoModel.detect` -/
  cocoCalls : ℕ
  /-- calls of `renderPredictions` -/
  renderCalls : ℕ
  /-- calls of `console.error` -/
  errorLogs : ℕ
  /-- rejections of `detectFrame`'s promise, which nothing handles -/
  unhandled : ℕ

/-- How a pending task completes. -/
inductive Outcome where
  /-- a timer or an animation frame fires -/
  | fired
  /-- The event `loadedmetadata`, with `video.videoWidth` and `video.videoHeight` -/
  | metadata (videoWidth videoHeight : ℕ)
  /-- Either `getUserMedia` or `cocoSsd.load` resolves -/
  | resolved
  /-- the awaited promise rejects -/
  | rejected
  /-- a detect call resolves with a list of detections -/
  | predictions (ps : List Prediction)
  /-- The call `detectWithYolo()` resolves with a value that is not an array: a truthy
  `data.predictions` such as a non-empty string, a number, `true` or an object;
  `lengthPositive` is what `predictions.length > 0` gives for it (true for a
  string, false for a number or `true`) -/
  | notArray (lengthPositive : Bool)
  /-- the `fetch` of `YOLO_CHECK_URL` ends -/
  | fetched (r : FetchResult)

/-- What the page receives: a click on the start/stop button, a change of the
model selector, the completion of the pending task at a position. -/
inductive Event where
  | click
  | select (value : String)
  | complete (i : ℕ) (o : Outcome)

/-- The function `checkYoloServer()` from its `fetch` on. -/
def checkYoloServer (fetched : FetchResult) (s : State) : State :=
  match fetched with
  | .response response =>
    if response.ok then
      { s with dom := { s.dom with yoloStatusText := "YOLOv8サーバー: オンライン",
                                   yoloStatusClass := "control-item yolo-status-online" } }
    else
      { s with dom := { s.dom with yoloStatusText := "YOLOv8サーバー: オフライン",
                                   yoloStatusClass := "control-item yolo-status-offline" } }
  | .networkError =>
    { s with dom := { s.dom with yoloStatusText := "YOLOv8サーバー: オフライン",
                                 yoloStatusClass := "control-item yolo-status-offline" } }

/-- The function `detectFrame()` up to its first `await` or to its return, with what it
is left waiting for. -/
def detectFrame (s : State) : State × Option Task :=
  if !s.isDetecting then (s, none)
  else if s.modelSelector = "coco-ssd" then
    if !s.cocoModel then (s, some (.timeout 500))
    else ({ s with cocoCalls := s.cocoCalls + 1 }, some .cocoDetect)
  else if s.modelSelector = "yolov8" then
    ({ s with yoloCalls := s.yoloCalls + 1 }, some .yoloDetect)
  else (s, none)

/-- The rest of `detectFrame` after `cocoModel.detect(video)` has resolved. -/
def detectFrame_afterCoco (predictions : List Prediction) (s : State) : State × Option Task :=
  ({ s with dom := renderPredictions predictions s.dom, renderCalls := s.renderCalls + 1 },
   some .animationFrame)

/-- The rest of `detectFrame` after `cocoModel.detect(video)` has rejected: no handler, the
invocation ends. -/
def detectFrame_cocoRejected (s : State) : State × Option Task :=
  ({ s with unhandled := s.unhandled + 1 }, none)

/-- The rest of `detectFrame` after `detectWithYolo()` has resolved. -/
def detectFrame_afterYolo (predictions : List Prediction) (s : State) : State × Option Task :=
  ({ s with dom := renderPredictions predictions s.dom, renderCalls := s.renderCalls + 1 },
   some (.timeout 250))

/-- The rest of `detectFrame` after `detectWithYolo()` has resolved with a value that is
not an array: `renderPredictions` throws, outside the `try`, and the invocation
ends before `setTimeout`.  When `predictions.length > 0` holds the throw is at
`predictions.map`, before anything is written; otherwise the placeholder is
written and the canvas cleared, and the throw is at `predictions.forEach`. -/
def detectFrame_afterYoloNotArray (lengthPositive : Bool) (s : State) : State × Option Task :=
  let s1 : State := { s with renderCalls := s.renderCalls + 1, unhandled := s.unhandled + 1 }
  if lengthPositive then (s1, none)
  else
    ({ s1 with dom := { s1.dom with debugText := "何も検出されていません...", canvas := [] } }, none)

/-- The rest of `detectFrame` entering its `catch`, up to `await checkYoloServer()`. -/
def detectFrame_catch (s : State) : State × Option Task :=
  ({ s with errorLogs := s.errorLogs + 1,
            dom := { s.dom with debugText := "YOLOv8サーバーとの通信に失敗しました。" },
            checkCalls := s.checkCalls + 1 },
   some .yoloRecheck)

/-- The rest of `detectFrame` from the end of the `checkYoloServer()` of its `catch` on;
`predictions` is still the initial `[]`. -/
def detectFrame_afterCatch (fetched : FetchResult) (s : State) : State × Option Task :=
  let s1 := checkYoloServer fetched s
  ({ s1 with dom := renderPredictions [] s1.dom, renderCalls := s1.renderCalls + 1 },
   some (.timeout 250))

/-- The function `toggleDetection()` up to its first `await` (the `getUserMedia` of
`setupCamera`) or, when stopping, to its end. -/
def toggleDetection (s : State) : State × Option Task :=
  if s.isDetecting then
    let s1 : State := { s with isDetecting := false,
                               dom := { s.dom with btnText := "検出を開始", btnRunning := false } }
    let s2 : State :=
      if s1.videoStream then
        { s1 with dom := { s1.dom with tracksLive := false, videoSrc := false } }
      else s1
    ({ s2 with dom := { s2.dom with canvas := [], debugText := "" } }, none)
  else
    ({ s with dom := { s.dom with btnText := "検出を停止", btnRunning := true },
              isDetecting := true },
     some .getUserMedia)

/-- The rest of `setupCamera` after `getUserMedia` has resolved. -/
def setupCamera_stream (s : State) : State × Option Task :=
  ({ s with videoStream := true, dom := { s.dom with videoSrc := true, tracksLive := true } },
   some .loadedMetadata)

/-- The `catch` of `toggleDetection`. -/
def toggleDetection_catch (s : State) : State × Option Task :=
  ({ s with errorLogs := s.errorLogs + 1, isDetecting := false,
            dom := { s.dom with btnText := "検出を開始", btnRunning := false } },
   none)

/-- The `onloadedmetadata` handler of `setupCamera`, then `toggleDetection` from
the end of `await setupCamera()` up to `await cocoSsd.load()` or into `detectFrame()`.
Assigning `canvas.width` resets the canvas. -/
def toggleDetection_afterCamera (videoWidth videoHeight : ℕ) (s : State) : State × Option Task :=
  let s1 : State := { s with dom := { s.dom with canvasSize := (videoWidth, videoHeight),
                                                 canvas := [] } }
  if s1.modelSelector = "coco-ssd" && !s1.cocoModel then
    ({ s1 with dom := { s1.dom with loadingText := "COCO-SSDモデルを読み込んでいます...",
                                    loadingDisplay := true } },
     some .modelLoad)
  else detectFrame s1

/-- The rest of `toggleDetection` after `cocoSsd.load()` has resolved. -/
def toggleDetection_afterLoad (s : State) : State × Option Task :=
  detectFrame { s with cocoModel := true, dom := { s.dom with loadingDisplay := false } }

/-- The resumption of a pending task by an outcome; `none` when the task cannot
complete that way. -/
def resume (s : State) : Task → Outcome → Option (State × Option Task)
  | .startupCheck, .fetched r => some (checkYoloServer r s, none)
  | .getUserMedia, .resolved => some (setupCamera_stream s)
  | .getUserMedia, .rejected => some (toggleDetection_catch s)
  | .loadedMetadata, .metadata w h => some (toggleDetection_afterCamera w h s)
  | .modelLoad, .resolved => some (toggleDetection_afterLoad s)
  | .modelLoad, .rejected => some (toggleDetection_catch s)
  | .timeout _, .fired => some (detectFrame s)
  | .animationFrame, .fired => some (detectFrame s)
  | .cocoDetect, .predictions ps => some (detectFrame_afterCoco ps s)
  | .cocoDetect, .rejected => some (detectFrame_cocoRejected s)
  | .yoloDetect, .predictions ps => some (detectFrame_afterYolo ps s)
  | .yoloDetect, .notArray lengthPositive => some (detectFrame_afterYoloNotArray lengthPositive s)
  | .yoloDetect, .rejected => some (detectFrame_catch s)
  | .yoloRecheck, .fetched r => some (detectFrame_afterCatch r s)
  | _, _ => none

/-- The pending list after the task at `i` has run: replaced by what the
invocation now waits for, or removed when the invocation has ended. -/
def settle (tasks : List Task) (i : ℕ) : Option Task → List Task
  | some t => tasks.set i t
  | none => tasks.eraseIdx i

/-- One turn of the event loop. -/
def step (s : State) : Event → Option State
  | .click =>
    match toggleDetection s with
    | (s1, t) => some { s1 with tasks := s1.tasks ++ t.toList }
  | .select value => some { s with modelSelector := value }
  | .complete i o =>
    match s.tasks[i]? with
    | none => none
    | some t =>
      match resume s t o with
      | none => none
      | some (s1, next) => some { s1 with tasks := settle s1.tasks i next }

/-- A sequence of turns; `none` when one of them is not possible. -/
def run (s : State) : List Event → Option State
  | [] => some s
  | e :: rest => (step s e).bind (fun s1 => run s1 rest)

/-- A detection cycle that is scheduled or in flight. -/
def Task.isCycle : Task → Bool
  | .timeout _ => true
  | .animationFrame => true
  | .cocoDetect => true
  | .yoloDetect => true
  | .yoloRecheck => true
  | _ => false

/-- The number of detection cycles scheduled or in flight. -/
def activeCycles (s : State) : ℕ := (s.tasks.filter Task.isCycle).length

/-- The page when the script has run and `DOMContentLoaded` has fired: the
globals as declared, the `checkYoloServer` of the listener pending; the
selector's initial value comes from the page. -/
def initial (selected : String) : State :=
  { isDetecting := false, cocoModel := false, videoStream := false,
    modelSelector := selected,
    dom := { debugText := "", canvas := [], canvasSize := (0, 0), warningDisplay := false,
             playCalls := 0, btnText := "検出を開始", btnRunning := false,
             loadingText := "", loadingDisplay := false,
             yoloStatusText := "", yoloStatusClass := "control-item",
             videoSrc := false, tracksLive := false },
    tasks := [.startupCheck], checkCalls := 1, yoloCalls := 0, cocoCalls := 0,
    renderCalls := 0, errorLogs := 0, unhandled := 0 }

/-- A pending task that belongs to a run of the detection: a start in progress
or a detection cycle (every task but the startup check). -/
def Task.isStrand : Task → Bool
  | .startupCheck => false
  | _ => true

/-- The number of starts in progress and of detection cycles scheduled or in
flight. -/
def strands (s : State) : ℕ := (s.tasks.filter Task.isStrand).length

/-- A turn of the event loop in which start is not clicked while a start or a
cycle of an earlier run is still pending. -/
def stepCalm (s : State) (e : Event) : Option State :=
  match e with
  | .click => if s.isDetecting = false ∧ strands s ≠ 0 then none else step s .click
  | _ => step s e

/-- A sequence of such turns. -/
def runCalm (s : State) : List Event → Option State
  | [] => some s
  | e :: rest => (stepCalm s e).bind (fun s1 => runCalm s1 rest)

/-! ## Auxiliary predicates, example states and runs -/

/-- A detection of the target class, used in the concrete runs below. -/
def bear : Prediction := { «class» := "bear", score := 9 / 10, bbox := (40, 30, 200, 150) }

/-- Whether a call of `detectWithYolo` ended in `reject`. -/
def rejects : Except String JsVal → Bool
  | .error _ => true
  | .ok _ => false

/-- A callback of `detectFrame` that is scheduled: a timer or an animation frame. -/
def Task.isScheduled : Task → Bool
  | .timeout _ => true
  | .animationFrame => true
  | _ => false

/-- The answer of a server that is up: status 200. -/
def serverUp : FetchResult := .response { status := 200, json := none }

/-- The page started with `yolov8` selected: startup check answered, start
clicked, camera granted, metadata loaded; the first cycle's remote call is
pending. -/
def yoloStarted : List Event :=
  [.complete 0 (.fetched serverUp), .click, .complete 0 .resolved, .complete 0 (.metadata 640 480)]

/-- The page started with `coco-ssd` selected: as `yoloStarted`, then the model
loaded; the first cycle's `cocoModel.detect` is pending. -/
def cocoStarted : List Event :=
  [.complete 0 (.fetched serverUp), .click, .complete 0 .resolved, .complete 0 (.metadata 640 480),
   .complete 0 .resolved]

/-- The state `yoloStarted` leads to, after a first cycle that found nothing:
detecting, `yolov8` selected, the next cycle on its 250 ms timer. -/
def yoloScheduled : State :=
  (run (initial "yolov8") (yoloStarted ++ [.complete 0 (.predictions [])])).getD (initial "yolov8")

/-- The state `cocoStarted` leads to, after a first cycle that found nothing:
detecting, `coco-ssd` selected and loaded, the next cycle on an animation
frame. -/
def cocoScheduled : State :=
  (run (initial "coco-ssd") (cocoStarted ++ [.complete 0 (.predictions [])])).getD
    (initial "coco-ssd")

/-! ## The render pass -/

theorem foldl_renderEach_fst (predictions : List Prediction) (acc : Bool × List CanvasOp) :
    (predictions.foldl renderEach acc).1 = (acc.1 || alertActive predictions) := by
  induction predictions generalizing acc with
  | nil => simp [alertActive]
  | cons p rest ih =>
    rw [List.foldl_cons, ih]
    by_cases h : p.«class» = "bear"
    · simp [renderEach, alertActive, h]
    · have hb : (p.«class» == "bear") = false := by simpa using h
      simp [renderEach, alertActive, h, hb]

theorem alertActive_iff (predictions : List Prediction) :
    alertActive predictions = true ↔ ∃ p ∈ predictions, p.«class» = "bear" := by
  simp [alertActive]

theorem renderPredictions_warningDisplay (predictions : List Prediction) (d : Dom) :
    (renderPredictions predictions d).warningDisplay = alertActive predictions := by
  unfold renderPredictions
  simp only [foldl_renderEach_fst, Bool.false_or]
  by_cases hl : 0 < predictions.length <;> cases alertActive predictions <;> simp [hl]

theorem renderPredictions_playCalls (predictions : List Prediction) (d : Dom) :
    (renderPredictions predictions d).playCalls
      = d.playCalls + (if alertActive predictions then 1 else 0) := by
  unfold renderPredictions
  simp only [foldl_renderEach_fst, Bool.false_or]
  by_cases hl : 0 < predictions.length <;> cases alertActive predictions <;> simp [hl]

/-- C1: after `renderPredictions` the alert banner is shown exactly when some
prediction of the list has class `"bear"`, and hidden exactly when none has,
whatever the banner's state before the call. -/
theorem renderPredictions_banner_iff_bear (predictions : List Prediction) (d : Dom) :
    ((renderPredictions predictions d).warningDisplay = true
        ↔ ∃ p ∈ predictions, p.«class» = "bear")
      ∧ ((renderPredictions predictions d).warningDisplay = false
        ↔ ¬ ∃ p ∈ predictions, p.«class» = "bear") := by
  rw [renderPredictions_warningDisplay, ← alertActive_iff]
  cases alertActive predictions <;> simp

theorem renderAll_playCalls (results : List (List Prediction)) (d : Dom) :
    (renderAll results d).playCalls = d.playCalls + (results.filter alertActive).length := by
  induction results generalizing d with
  | nil => simp [renderAll]
  | cons r rest ih =>
    have h := ih (renderPredictions r d)
    simp only [renderAll, List.foldl_cons] at h ⊢
    rw [h, renderPredictions_playCalls]
    cases hr : alertActive r <;> simp [List.filter_cons, hr]; omega

/-- C2, as stated, fails: three renders in a row, each of a result holding a
bear, starting from a hidden banner, call `alertSound.play()` three times,
while the alert state goes from Clear to Active once. -/
theorem three_bear_renders_play_thrice :
    (initial "yolov8").dom.warningDisplay = false
      ∧ (renderAll [[bear], [bear], [bear]] (initial "yolov8").dom).playCalls = 3
      ∧ clearToActive (initial "yolov8").dom.warningDisplay
          ([[bear], [bear], [bear]].map alertActive) = 1 := by
  refine ⟨rfl, ?_, ?_⟩
  · rw [renderAll_playCalls]
    decide
  · decide

/-- C2, amended: over any sequence of renders, `alertSound.play()` is called
once per render whose result holds a bear (once per Active render, edge or
not); three renders in a row whose results each hold a bear call it three
times. -/
theorem play_once_per_active_render (results : List (List Prediction)) (d : Dom)
    (a b c : List Prediction) :
    (renderAll results d).playCalls = d.playCalls + (results.filter alertActive).length
      ∧ (renderAll [bear :: a, bear :: b, bear :: c] d).playCalls = d.playCalls + 3 := by
  refine ⟨renderAll_playCalls results d, ?_⟩
  rw [renderAll_playCalls]
  simp [List.filter_cons, alertActive, bear]

/-! ## The remote backend -/

/-- C7, as stated, fails: a 200 response whose body is the object without a
`predictions` field makes `detectWithYolo` resolve, with the empty list; a 200
response whose `predictions` is the string `"oops"` makes it resolve with that
string. -/
theorem detectWithYolo_missing_field_resolves :
    detectWithYolo true (.response { status := 200, json := some (.obj []) }) = .ok (.arr [])
      ∧ detectWithYolo true
          (.response { status := 200, json := some (.obj [("predictions", .str "oops")]) })
        = .ok (.str "oops") := by
  constructor <;> rfl

/-- C7, amended: `detectWithYolo` rejects for every response whose status is
outside 200-299, and for a body that is not JSON or is `null`; for a successful
response whose JSON object has no `predictions` field it resolves with the
empty list; a `predictions` value that is there is returned as it is when
truthy and replaced by the empty list when falsy; a predictions list is
returned exactly. -/
theorem detectWithYolo_outcomes (bad good : ℕ) (blob : Bool) (json : Option JsVal)
    (missing present rest : List (String × JsVal)) (v : JsVal) (items : List JsVal)
    (hbad : ¬ (200 ≤ bad ∧ bad ≤ 299)) (hgood : 200 ≤ good ∧ good ≤ 299)
    (hmissing : missing.lookup "predictions" = none)
    (hpresent : present.lookup "predictions" = some v) :
    rejects (detectWithYolo blob (.response { status := bad, json := json })) = true
      ∧ rejects (detectWithYolo blob (.response { status := good, json := none })) = true
      ∧ rejects (detectWithYolo blob (.response { status := good, json := some .null })) = true
      ∧ detectWithYolo true (.response { status := good, json := some (.obj missing) })
          = .ok (.arr [])
      ∧ detectWithYolo true (.response { status := good, json := some (.obj present) })
          = .ok (if v.truthy then v else .arr [])
      ∧ detectWithYolo true
          (.response { status := good, json := some (.obj (("predictions", .arr items) :: rest)) })
          = .ok (.arr items) := by
  have hb : Response.ok { status := bad, json := json } = false := by
    simp only [Response.ok, Bool.and_eq_false_iff, decide_eq_false_iff_not]
    by_cases h : 200 ≤ bad
    · exact Or.inr (fun h2 => hbad ⟨h, h2⟩)
    · exact Or.inl h
  have hg : ∀ j, Response.ok { status := good, json := j } = true := by
    intro j
    simp [Response.ok, hgood.1, hgood.2]
  refine ⟨?_, ?_, ?_, ?_, ?_, ?_⟩
  · cases blob <;> simp [detectWithYolo, rejects, hb]
  · cases blob <;> simp [detectWithYolo, rejects, hg]
  · cases blob <;> simp [detectWithYolo, rejects, hg, JsVal.predictions]
  · simp [detectWithYolo, hg, JsVal.predictions, hmissing, JsVal.truthy]
  · simp [detectWithYolo, hg, JsVal.predictions, hpresent]
  · simp [detectWithYolo, hg, JsVal.predictions, List.lookup, JsVal.truthy]

theorem detectWithYolo_outcomes_witness :
    rejects (detectWithYolo true (.response { status := 500, json := some (.obj []) })) = true
      ∧ detectWithYolo true (.response { status := 200, json := some (.obj []) })
          = .ok (.arr [])
      ∧ detectWithYolo true
          (.response { status := 200, json := some (.obj [("predictions", .arr [.num 1])]) })
          = .ok (.arr [.num 1]) := by
  have h := detectWithYolo_outcomes 500 200 true (some (.obj [])) []
    [("predictions", .arr [.num 1])] [] (.arr [.num 1]) [.num 1]
    (by decide) (by decide) rfl rfl
  exact ⟨h.1, h.2.2.2.1, h.2.2.2.2.2⟩

/-! ## Turns of the event loop -/

theorem getElem?_set_of_getElem? {α : Type} {l : List α} {i : ℕ} {a : α} (b : α)
    (h : l[i]? = some a) : (l.set i b)[i]? = some b :=
  List.getElem?_set_self (List.getElem?_eq_some.1 h).1

theorem step_complete {s : State} {i : ℕ} {t : Task} {o : Outcome} {r : State × Option Task}
    (ht : s.tasks[i]? = some t) (hr : resume s t o = some r) :
    step s (.complete i o) = some { r.1 with tasks := settle r.1.tasks i r.2 } := by
  simp [step, ht, hr]

theorem resume_scheduled (s : State) {t : Task} (h : t.isScheduled = true) :
    resume s t .fired = some (detectFrame s) := by
  cases t <;> simp_all [Task.isScheduled, resume]

theorem detectFrame_yolo {s : State} (hrun : s.isDetecting = true)
    (hsel : s.modelSelector = "yolov8") :
    detectFrame s = ({ s with yoloCalls := s.yoloCalls + 1 }, some .yoloDetect) := by
  simp [detectFrame, hrun, hsel]

theorem detectFrame_coco {s : State} (hrun : s.isDetecting = true)
    (hsel : s.modelSelector = "coco-ssd") :
    detectFrame s = if s.cocoModel then ({ s with cocoCalls := s.cocoCalls + 1 }, some .cocoDetect)
      else (s, some (.timeout 500)) := by
  cases hm : s.cocoModel <;> simp [detectFrame, hrun, hsel, hm]

theorem detectFrame_idle {s : State} (hidle : s.isDetecting = false) :
    detectFrame s = (s, none) := by
  simp [detectFrame, hidle]

/-- A scheduled cycle fires while detecting with `yolov8` selected: the remote
call is made and the cycle waits for it. -/
theorem step_fire_yolo {s : State} {i : ℕ} {t : Task}
    (hrun : s.isDetecting = true) (hsel : s.modelSelector = "yolov8")
    (ht : s.tasks[i]? = some t) (hsched : t.isScheduled = true) :
    step s (.complete i .fired)
      = some { s with yoloCalls := s.yoloCalls + 1, tasks := s.tasks.set i .yoloDetect } := by
  rw [step_complete ht (resume_scheduled s hsched), detectFrame_yolo hrun hsel]
  simp [settle]

/-- A scheduled cycle fires while detecting with `coco-ssd` selected. -/
theorem step_fire_coco {s : State} {i : ℕ} {t : Task}
    (hrun : s.isDetecting = true) (hsel : s.modelSelector = "coco-ssd")
    (ht : s.tasks[i]? = some t) (hsched : t.isScheduled = true) :
    step s (.complete i .fired)
      = some (if s.cocoModel then
          { s with cocoCalls := s.cocoCalls + 1, tasks := s.tasks.set i .cocoDetect }
        else { s with tasks := s.tasks.set i (.timeout 500) }) := by
  rw [step_complete ht (resume_scheduled s hsched), detectFrame_coco hrun hsel]
  cases hm : s.cocoModel <;> simp [settle, hm]

theorem step_yolo_resolved {s : State} {i : ℕ} (ps : List Prediction)
    (ht : s.tasks[i]? = some .yoloDetect) :
    step s (.complete i (.predictions ps))
      = some { s with dom := renderPredictions ps s.dom, renderCalls := s.renderCalls + 1,
                      tasks := s.tasks.set i (.timeout 250) } := by
  rw [step_complete (o := .predictions ps) ht (r := detectFrame_afterYolo ps s) rfl]
  simp [detectFrame_afterYolo, settle]

theorem step_yolo_rejected {s : State} {i : ℕ} (ht : s.tasks[i]? = some .yoloDetect) :
    step s (.complete i .rejected)
      = some { s with errorLogs := s.errorLogs + 1,
                      dom := { s.dom with debugText := "YOLOv8サーバーとの通信に失敗しました。" },
                      checkCalls := s.checkCalls + 1,
                      tasks := s.tasks.set i .yoloRecheck } := by
  rw [step_complete (o := .rejected) ht (r := detectFrame_catch s) rfl]
  simp [detectFrame_catch, settle]

theorem step_yolo_rechecked {s : State} {i : ℕ} (fetched : FetchResult)
    (ht : s.tasks[i]? = some .yoloRecheck) :
    step s (.complete i (.fetched fetched))
      = some { checkYoloServer fetched s with
                dom := renderPredictions [] (checkYoloServer fetched s).dom,
                renderCalls := (checkYoloServer fetched s).renderCalls + 1,
                tasks := (checkYoloServer fetched s).tasks.set i (.timeout 250) } := by
  rw [step_complete (o := .fetched fetched) ht (r := detectFrame_afterCatch fetched s) rfl]
  simp [detectFrame_afterCatch, settle]

theorem step_coco_resolved {s : State} {i : ℕ} (ps : List Prediction)
    (ht : s.tasks[i]? = some .cocoDetect) :
    step s (.complete i (.predictions ps))
      = some { s with dom := renderPredictions ps s.dom, renderCalls := s.renderCalls + 1,
                      tasks := s.tasks.set i .animationFrame } := by
  rw [step_complete (o := .predictions ps) ht (r := detectFrame_afterCoco ps s) rfl]
  simp [detectFrame_afterCoco, settle]

/-! `checkYoloServer` writes the status indicator only. -/

@[simp]
theorem checkYoloServer_isDetecting (fetched : FetchResult) (s : State) :
    (checkYoloServer fetched s).isDetecting = s.isDetecting := by
  unfold checkYoloServer
  cases fetched with
  | networkError => rfl
  | response r => cases h : r.ok <;> simp [h]

@[simp]
theorem checkYoloServer_cocoModel (fetched : FetchResult) (s : State) :
    (checkYoloServer fetched s).cocoModel = s.cocoModel := by
  unfold checkYoloServer
  cases fetched with
  | networkError => rfl
  | response r => cases h : r.ok <;> simp [h]

@[simp]
theorem checkYoloServer_modelSelector (fetched : FetchResult) (s : State) :
    (checkYoloServer fetched s).modelSelector = s.modelSelector := by
  unfold checkYoloServer
  cases fetched with
  | networkError => rfl
  | response r => cases h : r.ok <;> simp [h]

@[simp]
theorem checkYoloServer_tasks (fetched : FetchResult) (s : State) :
    (checkYoloServer fetched s).tasks = s.tasks := by
  unfold checkYoloServer
  cases fetched with
  | networkError => rfl
  | response r => cases h : r.ok <;> simp [h]

@[simp]
theorem checkYoloServer_checkCalls (fetched : FetchResult) (s : State) :
    (checkYoloServer fetched s).checkCalls = s.checkCalls := by
  unfold checkYoloServer
  cases fetched with
  | networkError => rfl
  | response r => cases h : r.ok <;> simp [h]

@[simp]
theorem checkYoloServer_yoloCalls (fetched : FetchResult) (s : State) :
    (checkYoloServer fetched s).yoloCalls = s.yoloCalls := by
  unfold checkYoloServer
  cases fetched with
  | networkError => rfl
  | response r => cases h : r.ok <;> simp [h]

@[simp]
theorem checkYoloServer_cocoCalls (fetched : FetchResult) (s : State) :
    (checkYoloServer fetched s).cocoCalls = s.cocoCalls := by
  unfold checkYoloServer
  cases fetched with
  | networkError => rfl
  | response r => cases h : r.ok <;> simp [h]

@[simp]
theorem checkYoloServer_renderCalls (fetched : FetchResult) (s : State) :
    (checkYoloServer fetched s).renderCalls = s.renderCalls := by
  unfold checkYoloServer
  cases fetched with
  | networkError => rfl
  | response r => cases h : r.ok <;> simp [h]

@[simp]
theorem checkYoloServer_errorLogs (fetched : FetchResult) (s : State) :
    (checkYoloServer fetched s).errorLogs = s.errorLogs := by
  unfold checkYoloServer
  cases fetched with
  | networkError => rfl
  | response r => cases h : r.ok <;> simp [h]

@[simp]
theorem checkYoloServer_unhandled (fetched : FetchResult) (s : State) :
    (checkYoloServer fetched s).unhandled = s.unhandled := by
  unfold checkYoloServer
  cases fetched with
  | networkError => rfl
  | response r => cases h : r.ok <;> simp [h]

@[simp]
theorem checkYoloServer_dom_playCalls (fetched : FetchResult) (s : State) :
    (checkYoloServer fetched s).dom.playCalls = s.dom.playCalls := by
  unfold checkYoloServer
  cases fetched with
  | networkError => rfl
  | response r => cases h : r.ok <;> simp [h]

@[simp]
theorem checkYoloServer_dom_debugText (fetched : FetchResult) (s : State) :
    (checkYoloServer fetched s).dom.debugText = s.dom.debugText := by
  unfold checkYoloServer
  cases fetched with
  | networkError => rfl
  | response r => cases h : r.ok <;> simp [h]

@[simp]
theorem checkYoloServer_dom_warningDisplay (fetched : FetchResult) (s : State) :
    (checkYoloServer fetched s).dom.warningDisplay = s.dom.warningDisplay := by
  unfold checkYoloServer
  cases fetched with
  | networkError => rfl
  | response r => cases h : r.ok <;> simp [h]

@[simp]
theorem checkYoloServer_dom_canvas (fetched : FetchResult) (s : State) :
    (checkYoloServer fetched s).dom.canvas = s.dom.canvas := by
  unfold checkYoloServer
  cases fetched with
  | networkError => rfl
  | response r => cases h : r.ok <;> simp [h]

@[simp]
theorem checkYoloServer_dom_btnRunning (fetched : FetchResult) (s : State) :
    (checkYoloServer fetched s).dom.btnRunning = s.dom.btnRunning := by
  unfold checkYoloServer
  cases fetched with
  | networkError => rfl
  | response r => cases h : r.ok <;> simp [h]

@[simp]
theorem checkYoloServer_dom_btnText (fetched : FetchResult) (s : State) :
    (checkYoloServer fetched s).dom.btnText = s.dom.btnText := by
  unfold checkYoloServer
  cases fetched with
  | networkError => rfl
  | response r => cases h : r.ok <;> simp [h]

theorem renderPredictions_nil (d : Dom) :
    renderPredictions [] d
      = { d with debugText := "何も検出されていません...", canvas := [], warningDisplay := false } := by
  simp [renderPredictions]

/-- C3: a cycle that starts while detecting with `yolov8` selected and whose
remote call fails (as it does on HTTP 500) calls `checkYoloServer`, renders the
empty result (banner hidden, canvas cleared, no `play()`), leaves
`isDetecting` true and ends in `setTimeout(detectFrame, 250)`, the same
pending timer a cycle whose call succeeds ends in. -/
theorem failed_remote_cycle (s : State) (i : ℕ) (t : Task) (fetched : FetchResult)
    (ps : List Prediction) (json : Option JsVal)
    (hrun : s.isDetecting = true) (hsel : s.modelSelector = "yolov8")
    (ht : s.tasks[i]? = some t) (hsched : t.isScheduled = true) :
    rejects (detectWithYolo true (.response { status := 500, json := json })) = true
      ∧ (∃ s3, run s [.complete i .fired, .complete i .rejected, .complete i (.fetched fetched)]
            = some s3
          ∧ s3.yoloCalls = s.yoloCalls + 1
          ∧ s3.checkCalls = s.checkCalls + 1
          ∧ s3.renderCalls = s.renderCalls + 1
          ∧ s3.dom.warningDisplay = false
          ∧ s3.dom.canvas = []
          ∧ s3.dom.playCalls = s.dom.playCalls
          ∧ s3.isDetecting = true
          ∧ s3.tasks = s.tasks.set i (.timeout 250))
      ∧ (∃ s2, run s [.complete i .fired, .complete i (.predictions ps)] = some s2
          ∧ s2.isDetecting = true
          ∧ s2.tasks = s.tasks.set i (.timeout 250)) := by
  have h1 := step_fire_yolo hrun hsel ht hsched
  have ht1 := getElem?_set_of_getElem? Task.yoloDetect ht
  have ht2 := getElem?_set_of_getElem? Task.yoloRecheck ht
  refine ⟨by simp [detectWithYolo, rejects, Response.ok], ?_, ?_⟩
  · simp only [run, h1, Option.some_bind]
    rw [step_yolo_rejected (i := i) ht1]
    simp only [Option.some_bind, List.set_set]
    rw [step_yolo_rechecked (i := i) fetched ht2]
    refine ⟨_, rfl, ?_⟩
    simp [renderPredictions_nil, hrun]
  · simp only [run, h1, Option.some_bind]
    rw [step_yolo_resolved (i := i) ps ht1]
    refine ⟨_, rfl, ?_⟩
    simp [hrun]

theorem filter_length_set {α : Type} (p : α → Bool) {l : List α} {i : ℕ} {a : α} (b : α)
    (h : l[i]? = some a) (hp : p a = p b) :
    ((l.set i b).filter p).length = (l.filter p).length := by
  induction l generalizing i with
  | nil => simp at h
  | cons x rest ih =>
    cases i with
    | zero =>
      have hx : x = a := by simpa using h
      subst hx
      simp only [List.set_cons_zero, List.filter_cons, hp]
      cases p b <;> simp
    | succ j =>
      have hj : rest[j]? = some a := by simpa using h
      simp only [List.set_cons_succ, List.filter_cons]
      cases p x <;> simp [ih hj]

theorem isCycle_of_isScheduled {t : Task} (h : t.isScheduled = true) : t.isCycle = true := by
  cases t <;> simp_all [Task.isScheduled, Task.isCycle]

/-- A scheduled cycle replaced in place by a pending timer: as many cycles as
before. -/
theorem activeCycles_set {s s1 : State} {i : ℕ} {t : Task} (u : Task)
    (ht : s.tasks[i]? = some t) (hsched : t.isScheduled = true) (hu : u.isCycle = true)
    (h1 : s1.tasks = s.tasks.set i u) : activeCycles s1 = activeCycles s := by
  unfold activeCycles
  rw [h1]
  exact filter_length_set Task.isCycle u ht (by rw [isCycle_of_isScheduled hsched, hu])

/-- C6, as stated, fails: in `cocoScheduled` (detecting, model loaded, a local
cycle on its animation frame) the selector is set to `yolov8` and the cycle
fires; the remote call is made, and when it resolves with the string
`"oops"`, which `detectWithYolo` hands on for a 200 response carrying it as
`predictions`, the render throws and no next cycle is scheduled.  Likewise
when, after a remote cycle, the selector is set back to `coco-ssd` and the
local detect call of the cycle that fires rejects.  In both runs
`isDetecting` is still true. -/
theorem selected_cycle_may_schedule_nothing :
    detectWithYolo true
        (.response { status := 200, json := some (.obj [("predictions", .str "oops")]) })
      = .ok (.str "oops")
    ∧ (run cocoScheduled [.select "yolov8", .complete 0 .fired]).map
        (fun s => (s.isDetecting, s.tasks, s.yoloCalls, s.cocoCalls))
      = some (true, [.yoloDetect], 1, 1)
    ∧ (run cocoScheduled [.select "yolov8", .complete 0 .fired, .complete 0 (.notArray true)]).map
        (fun s => (s.isDetecting, s.tasks, activeCycles s))
      = some (true, [], 0)
    ∧ (run cocoScheduled [.select "yolov8", .complete 0 .fired, .complete 0 (.predictions []),
          .select "coco-ssd", .complete 0 .fired]).map
        (fun s => (s.isDetecting, s.tasks, s.yoloCalls, s.cocoCalls))
      = some (true, [.cocoDetect], 1, 2)
    ∧ (run cocoScheduled [.select "yolov8", .complete 0 .fired, .complete 0 (.predictions []),
          .select "coco-ssd", .complete 0 .fired, .complete 0 .rejected]).map
        (fun s => (s.isDetecting, s.tasks, activeCycles s))
      = some (true, [], 0) := by
  refine ⟨rfl, ?_, ?_, ?_, ?_⟩ <;> decide

/-- C6, amended: whatever was selected before, a scheduled cycle that fires after
the selector has been set follows the branch of the value it reads then, and
`isDetecting` stays true.  Set to `yolov8`: the remote call is made, the local
model is not called, and when the call rejects or resolves with a list of
detections the cycle ends in the 250 ms timer.  Set to `coco-ssd` with the
model loaded: the local model is called, no remote call is made, and when the
call resolves with a list of detections the cycle ends in an animation-frame
request.  Set to `coco-ssd` with no model: nothing is called or rendered and
the cycle is put off by 500 ms.  In these cases the pending list differs only
at the cycle's own position, so as many cycles are active as before. -/
theorem selection_read_each_cycle (s : State) (i : ℕ) (t : Task) (ps : List Prediction)
    (fetched : FetchResult)
    (hrun : s.isDetecting = true) (ht : s.tasks[i]? = some t) (hsched : t.isScheduled = true) :
    (∃ s1, run s [.select "yolov8", .complete i .fired] = some s1
        ∧ s1.yoloCalls = s.yoloCalls + 1 ∧ s1.cocoCalls = s.cocoCalls
        ∧ s1.renderCalls = s.renderCalls
        ∧ s1.isDetecting = true ∧ s1.tasks = s.tasks.set i .yoloDetect)
      ∧ (∃ s2, run s [.select "yolov8", .complete i .fired, .complete i (.predictions ps)] = some s2
        ∧ s2.yoloCalls = s.yoloCalls + 1 ∧ s2.cocoCalls = s.cocoCalls
        ∧ s2.isDetecting = true ∧ s2.tasks = s.tasks.set i (.timeout 250)
        ∧ activeCycles s2 = activeCycles s)
      ∧ (∃ s3, run s [.select "yolov8", .complete i .fired, .complete i .rejected,
            .complete i (.fetched fetched)] = some s3
        ∧ s3.yoloCalls = s.yoloCalls + 1 ∧ s3.cocoCalls = s.cocoCalls
        ∧ s3.isDetecting = true ∧ s3.tasks = s.tasks.set i (.timeout 250)
        ∧ activeCycles s3 = activeCycles s)
      ∧ (s.cocoModel = true →
          (∃ s1, run s [.select "coco-ssd", .complete i .fired] = some s1
            ∧ s1.cocoCalls = s.cocoCalls + 1 ∧ s1.yoloCalls = s.yoloCalls
            ∧ s1.renderCalls = s.renderCalls
            ∧ s1.isDetecting = true ∧ s1.tasks = s.tasks.set i .cocoDetect)
          ∧ (∃ s2, run s [.select "coco-ssd", .complete i .fired, .complete i (.predictions ps)]
                = some s2
            ∧ s2.cocoCalls = s.cocoCalls + 1 ∧ s2.yoloCalls = s.yoloCalls
            ∧ s2.isDetecting = true ∧ s2.tasks = s.tasks.set i .animationFrame
            ∧ activeCycles s2 = activeCycles s))
      ∧ (s.cocoModel = false →
          ∃ s1, run s [.select "coco-ssd", .complete i .fired] = some s1
            ∧ s1.cocoCalls = s.cocoCalls ∧ s1.yoloCalls = s.yoloCalls
            ∧ s1.renderCalls = s.renderCalls ∧ s1.dom = s.dom
            ∧ s1.isDetecting = true ∧ s1.tasks = s.tasks.set i (.timeout 500)
            ∧ activeCycles s1 = activeCycles s) := by
  have hselY : step s (.select "yolov8") = some { s with modelSelector := "yolov8" } := rfl
  have hselC : step s (.select "coco-ssd") = some { s with modelSelector := "coco-ssd" } := rfl
  have hy := step_fire_yolo (s := { s with modelSelector := "yolov8" }) hrun rfl ht hsched
  have hc := step_fire_coco (s := { s with modelSelector := "coco-ssd" }) hrun rfl ht hsched
  have ht1 := getElem?_set_of_getElem? Task.yoloDetect ht
  have ht2 := getElem?_set_of_getElem? Task.yoloRecheck ht
  have ht3 := getElem?_set_of_getElem? Task.cocoDetect ht
  refine ⟨?_, ?_, ?_, ?_, ?_⟩
  · simp only [run, hselY, hy, Option.some_bind]
    exact ⟨_, rfl, rfl, rfl, rfl, hrun, rfl⟩
  · simp only [run, hselY, hy, Option.some_bind]
    rw [step_yolo_resolved (i := i) ps ht1]
    refine ⟨_, rfl, rfl, rfl, hrun, by simp, ?_⟩
    exact activeCycles_set (.timeout 250) ht hsched rfl (by simp)
  · simp only [run, hselY, hy, Option.some_bind]
    rw [step_yolo_rejected (i := i) ht1]
    simp only [Option.some_bind, List.set_set]
    rw [step_yolo_rechecked (i := i) fetched ht2]
    refine ⟨_, rfl, by simp, by simp, by simp [hrun], by simp, ?_⟩
    exact activeCycles_set (.timeout 250) ht hsched rfl (by simp)
  · intro hm
    have hc1 : step { s with modelSelector := "coco-ssd" } (.complete i .fired)
        = some { s with modelSelector := "coco-ssd", cocoCalls := s.cocoCalls + 1,
                        tasks := s.tasks.set i .cocoDetect } := by
      rw [hc]; simp [hm]
    constructor
    · simp only [run, hselC, hc1, Option.some_bind]
      exact ⟨_, rfl, rfl, rfl, rfl, hrun, rfl⟩
    · simp only [run, hselC, hc1, Option.some_bind]
      rw [step_coco_resolved (i := i) ps ht3]
      refine ⟨_, rfl, rfl, rfl, hrun, by simp, ?_⟩
      exact activeCycles_set .animationFrame ht hsched rfl (by simp)
  · intro hm
    have hc1 : step { s with modelSelector := "coco-ssd" } (.complete i .fired)
        = some { s with modelSelector := "coco-ssd", tasks := s.tasks.set i (.timeout 500) } := by
      rw [hc]; simp [hm]
    simp only [run, hselC, hc1, Option.some_bind]
    refine ⟨_, rfl, rfl, rfl, rfl, rfl, hrun, rfl, ?_⟩
    exact activeCycles_set (.timeout 500) ht hsched rfl rfl

/-- The witness of C6: in `cocoScheduled` a `coco-ssd` cycle waits for its
animation frame; once the selector is set to `yolov8` the cycle that fires
makes the remote call and no local one.  In `yoloScheduled` no model is
loaded. -/
theorem selection_read_each_cycle_witness :
    cocoScheduled.isDetecting = true ∧ cocoScheduled.modelSelector = "coco-ssd"
      ∧ cocoScheduled.tasks = [.animationFrame] ∧ cocoScheduled.cocoModel = true
      ∧ yoloScheduled.cocoModel = false
      ∧ (∃ s1, run cocoScheduled [.select "yolov8", .complete 0 .fired] = some s1
          ∧ s1.yoloCalls = cocoScheduled.yoloCalls + 1 ∧ s1.cocoCalls = cocoScheduled.cocoCalls
          ∧ s1.renderCalls = cocoScheduled.renderCalls
          ∧ s1.isDetecting = true ∧ s1.tasks = cocoScheduled.tasks.set 0 .yoloDetect)
      ∧ (∃ s1, run cocoScheduled [.select "coco-ssd", .complete 0 .fired] = some s1
          ∧ s1.cocoCalls = cocoScheduled.cocoCalls + 1 ∧ s1.yoloCalls = cocoScheduled.yoloCalls
          ∧ s1.renderCalls = cocoScheduled.renderCalls
          ∧ s1.isDetecting = true ∧ s1.tasks = cocoScheduled.tasks.set 0 .cocoDetect)
      ∧ (∃ s1, run yoloScheduled [.select "coco-ssd", .complete 0 .fired] = some s1
          ∧ s1.cocoCalls = yoloScheduled.cocoCalls ∧ s1.yoloCalls = yoloScheduled.yoloCalls
          ∧ s1.renderCalls = yoloScheduled.renderCalls ∧ s1.dom = yoloScheduled.dom
          ∧ s1.isDetecting = true ∧ s1.tasks = yoloScheduled.tasks.set 0 (.timeout 500)
          ∧ activeCycles s1 = activeCycles yoloScheduled) := by
  have hc := selection_read_each_cycle cocoScheduled 0 .animationFrame [] .networkError
    (by decide) (by decide) (by decide)
  have hy := selection_read_each_cycle yoloScheduled 0 (.timeout 250) [] .networkError
    (by decide) (by decide) (by decide)
  exact ⟨by decide, by decide, by decide, by decide, by decide, hc.1,
    (hc.2.2.2.1 (by decide)).1, hy.2.2.2.2 (by decide)⟩

theorem eraseIdx_concat_length {α : Type} (l : List α) (a : α) :
    (l ++ [a]).eraseIdx l.length = l := by
  rw [List.eraseIdx_append_of_length_le (Nat.le_refl _)]
  simp

theorem step_click_idle {s : State} (hidle : s.isDetecting = false) :
    step s .click
      = some { s with dom := { s.dom with btnText := "検出を停止", btnRunning := true },
                      isDetecting := true, tasks := s.tasks ++ [.getUserMedia] } := by
  simp [step, toggleDetection, hidle]

/-- C9: a start attempted while idle whose camera setup fails, or whose model
load fails (with `coco-ssd` selected and no model loaded), ends with
`isDetecting` false and the button back at its not-running text and class,
with no detect call made, nothing rendered and nothing left pending that was
not pending before. -/
theorem failed_start_stays_idle (s : State) (w h : ℕ) (hidle : s.isDetecting = false) :
    (∃ s1, run s [.click, .complete s.tasks.length .rejected] = some s1
        ∧ s1.isDetecting = false ∧ s1.dom.btnRunning = false ∧ s1.dom.btnText = "検出を開始"
        ∧ s1.tasks = s.tasks ∧ s1.yoloCalls = s.yoloCalls ∧ s1.cocoCalls = s.cocoCalls
        ∧ s1.renderCalls = s.renderCalls)
      ∧ (s.modelSelector = "coco-ssd" → s.cocoModel = false →
          ∃ s1, run s [.click, .complete s.tasks.length .resolved,
              .complete s.tasks.length (.metadata w h), .complete s.tasks.length .rejected] = some s1
            ∧ s1.isDetecting = false ∧ s1.dom.btnRunning = false ∧ s1.dom.btnText = "検出を開始"
            ∧ s1.tasks = s.tasks ∧ s1.yoloCalls = s.yoloCalls ∧ s1.cocoCalls = s.cocoCalls
            ∧ s1.renderCalls = s.renderCalls) := by
  have hc := step_click_idle hidle
  constructor
  · simp only [run, hc, Option.some_bind]
    rw [step_complete (i := s.tasks.length) (t := .getUserMedia) (o := .rejected) (by simp) rfl]
    refine ⟨_, rfl, ?_⟩
    simp [toggleDetection_catch, settle, eraseIdx_concat_length]
  · intro hsel hm
    simp only [run, hc, Option.some_bind]
    rw [step_complete (i := s.tasks.length) (t := .getUserMedia) (o := .resolved) (by simp) rfl]
    simp only [Option.some_bind]
    rw [step_complete (i := s.tasks.length) (t := .loadedMetadata) (o := .metadata w h)
      (by simp [setupCamera_stream, settle]) rfl]
    simp only [Option.some_bind]
    rw [step_complete (i := s.tasks.length) (t := .modelLoad) (o := .rejected)
      (by simp [setupCamera_stream, settle, toggleDetection_afterCamera, hsel, hm]) rfl]
    refine ⟨_, rfl, ?_⟩
    simp [toggleDetection_catch, settle, setupCamera_stream, toggleDetection_afterCamera, hsel, hm,
      eraseIdx_concat_length]

/-- The witness of C9: the page as loaded with `coco-ssd` selected is idle with
no model; start is clicked and the camera is refused, or the camera is granted
and the model fails to load. -/
theorem failed_start_stays_idle_witness :
    (initial "coco-ssd").isDetecting = false ∧ (initial "coco-ssd").modelSelector = "coco-ssd"
      ∧ (initial "coco-ssd").cocoModel = false
      ∧ (∃ s1, run (initial "coco-ssd") [.click, .complete 1 .rejected] = some s1
          ∧ s1.isDetecting = false ∧ s1.dom.btnRunning = false ∧ s1.tasks = [.startupCheck])
      ∧ (∃ s1, run (initial "coco-ssd") [.click, .complete 1 .resolved,
              .complete 1 (.metadata 640 480), .complete 1 .rejected] = some s1
          ∧ s1.isDetecting = false ∧ s1.dom.btnRunning = false ∧ s1.tasks = [.startupCheck]) := by
  have hw := failed_start_stays_idle (initial "coco-ssd") 640 480 rfl
  obtain ⟨s1, h1, hd1, hb1, -, ht1, -⟩ := hw.1
  obtain ⟨s2, h2, hd2, hb2, -, ht2, -⟩ := hw.2 rfl rfl
  exact ⟨rfl, rfl, rfl, ⟨s1, h1, hd1, hb1, ht1⟩, ⟨s2, h2, hd2, hb2, ht2⟩⟩

/-! ## One chain of cycles as long as no restart overtakes a pending cycle -/

theorem filter_length_set_le {α : Type} (p : α → Bool) {l : List α} {i : ℕ} {a : α} (b : α)
    (h : l[i]? = some a) (hp : p a = true) :
    ((l.set i b).filter p).length ≤ (l.filter p).length := by
  induction l generalizing i with
  | nil => simp at h
  | cons x rest ih =>
    cases i with
    | zero =>
      have hx : x = a := by simpa using h
      subst hx
      simp only [List.set_cons_zero, List.filter_cons, hp]
      cases p b <;> simp
    | succ j =>
      have hj : rest[j]? = some a := by simpa using h
      simp only [List.set_cons_succ, List.filter_cons]
      cases p x <;> simp [ih hj]

theorem filter_length_eraseIdx_le {α : Type} (p : α → Bool) (l : List α) (i : ℕ) :
    ((l.eraseIdx i).filter p).length ≤ (l.filter p).length := by
  induction l generalizing i with
  | nil => simp
  | cons x rest ih =>
    cases i with
    | zero =>
      simp only [List.eraseIdx_cons_zero, List.filter_cons]
      cases p x <;> simp
    | succ j =>
      simp only [List.eraseIdx_cons_succ, List.filter_cons]
      cases p x <;> simp [ih j]

theorem detectFrame_tasks (s : State) : (detectFrame s).1.tasks = s.tasks := by
  unfold detectFrame
  split
  · rfl
  · split
    · split <;> rfl
    · split <;> rfl

theorem toggleDetection_afterCamera_tasks (w h : ℕ) (s : State) :
    (toggleDetection_afterCamera w h s).1.tasks = s.tasks := by
  unfold toggleDetection_afterCamera
  dsimp only
  split
  · rfl
  · exact detectFrame_tasks _

theorem detectFrame_afterYoloNotArray_tasks (lengthPositive : Bool) (s : State) :
    (detectFrame_afterYoloNotArray lengthPositive s).1.tasks = s.tasks := by
  cases lengthPositive <;> rfl

/-- No resumption touches the pending list itself, and the startup check is
followed by nothing. -/
theorem resume_tasks {s : State} {t : Task} {o : Outcome} {r : State × Option Task}
    (h : resume s t o = some r) :
    r.1.tasks = s.tasks ∧ (t.isStrand = false → r.2 = none) := by
  cases t <;> cases o <;> simp only [resume, Option.some.injEq, reduceCtorEq] at h <;>
    subst h <;> simp [Task.isStrand, checkYoloServer_tasks, setupCamera_stream,
      toggleDetection_catch, toggleDetection_afterLoad, detectFrame_tasks,
      detectFrame_afterCoco, detectFrame_cocoRejected, detectFrame_afterYolo, detectFrame_catch,
      detectFrame_afterCatch]
  · exact toggleDetection_afterCamera_tasks _ _ _
  · exact detectFrame_afterYoloNotArray_tasks _ _

/-- The completion of a task adds no strand. -/
theorem strands_step_complete {s s1 : State} {i : ℕ} {o : Outcome}
    (h : step s (.complete i o) = some s1) : strands s1 ≤ strands s := by
  unfold step at h
  cases ht : s.tasks[i]? with
  | none => simp [ht] at h
  | some t =>
    cases hr : resume s t o with
    | none => simp [ht, hr] at h
    | some r =>
      simp only [ht, hr, Option.some.injEq] at h
      subst h
      obtain ⟨htasks, hnone⟩ := resume_tasks hr
      unfold strands
      simp only [htasks]
      cases hn : r.2 with
      | none => exact filter_length_eraseIdx_le _ _ _
      | some u =>
        have hs : t.isStrand = true := by
          cases hst : t.isStrand with
          | true => rfl
          | false => rw [hnone hst] at hn; cases hn
        exact filter_length_set_le _ u ht hs

theorem toggleDetection_stop {s : State} (hrun : s.isDetecting = true) :
    (toggleDetection s).1.tasks = s.tasks ∧ (toggleDetection s).2 = none := by
  unfold toggleDetection
  simp only [hrun, if_true]
  split <;> simp

/-- A turn in which no restart overtakes a pending strand keeps the strands at
one at most. -/
theorem strands_stepCalm {s s1 : State} {e : Event} (hs : strands s ≤ 1)
    (h : stepCalm s e = some s1) : strands s1 ≤ 1 := by
  cases e with
  | click =>
    unfold stepCalm at h
    simp only at h
    split at h
    · cases h
    · rename_i hc
      cases hd : s.isDetecting with
      | true =>
        obtain ⟨h1, h2⟩ := toggleDetection_stop hd
        simp only [step] at h
        cases h
        unfold strands
        simp [h1, h2]
        exact hs
      | false =>
        have h0 : strands s = 0 := by
          by_contra hne
          exact hc ⟨hd, hne⟩
        rw [step_click_idle hd] at h
        cases h
        unfold strands at h0 ⊢
        simp [List.filter_append, h0, Task.isStrand]
  | select v =>
    simp only [stepCalm, step, Option.some.injEq] at h
    subst h
    exact hs
  | complete i o =>
    exact le_trans (strands_step_complete (by simpa [stepCalm] using h)) hs

theorem activeCycles_le_strands (s : State) : activeCycles s ≤ strands s := by
  unfold activeCycles strands
  induction s.tasks with
  | nil => simp
  | cons t rest ih =>
    simp only [List.filter_cons]
    cases t <;> simp [Task.isCycle, Task.isStrand] <;> omega

/-- As long as start is not clicked while a start or a cycle of an earlier run
is pending, the page has at most one detection cycle scheduled or in flight,
from the initial page on and whatever else happens. -/
theorem one_chain_without_restart (selected : String) (events : List Event) (s : State)
    (h : runCalm (initial selected) events = some s) : activeCycles s ≤ 1 := by
  have key : ∀ (es : List Event) (s0 s1 : State), strands s0 ≤ 1 → runCalm s0 es = some s1 →
      strands s1 ≤ 1 := by
    intro es
    induction es with
    | nil =>
      intro s0 s1 h0 hr
      simp only [runCalm, Option.some.injEq] at hr
      subst hr
      exact h0
    | cons e rest ih =>
      intro s0 s1 h0 hr
      simp only [runCalm] at hr
      cases hst : stepCalm s0 e with
      | none => simp [hst] at hr
      | some s2 =>
        rw [hst, Option.some_bind] at hr
        exact ih s2 s1 (strands_stepCalm h0 hst) hr
  exact le_trans (activeCycles_le_strands s) (key events (initial selected) s
    (by simp [strands, initial, Task.isStrand]) h)

/-- The witness of C3: from `yoloScheduled`, the timer fires, the remote call
rejects and the server is found down. -/
theorem failed_remote_cycle_witness :
    yoloScheduled.isDetecting = true ∧ yoloScheduled.modelSelector = "yolov8"
      ∧ yoloScheduled.tasks = [.timeout 250]
      ∧ ∃ s3, run yoloScheduled
            [.complete 0 .fired, .complete 0 .rejected, .complete 0 (.fetched .networkError)]
            = some s3
          ∧ s3.checkCalls = yoloScheduled.checkCalls + 1
          ∧ s3.dom.warningDisplay = false
          ∧ s3.isDetecting = true
          ∧ s3.tasks = yoloScheduled.tasks.set 0 (.timeout 250) := by
  refine ⟨by decide, by decide, by decide, ?_⟩
  obtain ⟨s3, h, -, hc, -, hw, -, -, hd, ht⟩ :=
    (failed_remote_cycle yoloScheduled 0 (.timeout 250) .networkError [] none
      (by decide) (by decide) (by decide) (by decide)).2.1
  exact ⟨s3, h, hc, hw, hd, ht⟩

/-- C4 fails on the code: with `yolov8` running and the first cycle's remote
call pending, a click stops the loop (`isDetecting` false, canvas cleared,
nothing rendered yet); when the call then resolves with a bear, the cycle
renders it all the same: banner shown, `play()` called, box and label drawn,
and a 250 ms timer set. -/
theorem stale_result_rendered_after_stop :
    (run (initial "yolov8") (yoloStarted ++ [.click])).map
        (fun s => (s.isDetecting, s.tasks, s.dom.warningDisplay, s.dom.playCalls,
          s.renderCalls, s.dom.canvas.length))
      = some (false, [.yoloDetect], false, 0, 0, 0)
    ∧ (run (initial "yolov8") (yoloStarted ++ [.click, .complete 0 (.predictions [bear])])).map
        (fun s => (s.isDetecting, s.tasks, s.dom.warningDisplay, s.dom.playCalls,
          s.renderCalls, s.dom.canvas.length))
      = some (false, [.timeout 250], true, 1, 1, 2) := by
  constructor <;> decide

/-- C5 fails on the code: with `yolov8` running and the first cycle's remote
call pending, a click to stop and a click to start leave that call pending next
to the new start; once the camera is set up again two remote calls are in
flight with `isDetecting` true, and after both resolve and both timers fire,
both cycles have passed the guard and two calls are in flight again. -/
theorem restart_runs_two_cycle_chains :
    (run (initial "yolov8")
        (yoloStarted ++ [.click, .click, .complete 1 .resolved, .complete 1 (.metadata 640 480)])).map
        (fun s => (s.isDetecting, s.tasks, activeCycles s, s.yoloCalls))
      = some (true, [.yoloDetect, .yoloDetect], 2, 2)
    ∧ (run (initial "yolov8")
        (yoloStarted ++ [.click, .click, .complete 1 .resolved, .complete 1 (.metadata 640 480),
          .complete 0 (.predictions []), .complete 1 (.predictions []),
          .complete 0 .fired, .complete 1 .fired])).map
        (fun s => (s.isDetecting, s.tasks, activeCycles s, s.yoloCalls))
      = some (true, [.yoloDetect, .yoloDetect], 2, 4) := by
  constructor <;> decide

/-- C8 fails on the code: with `coco-ssd` running and the model loaded, a
`cocoModel.detect` that rejects ends `detectFrame` with nothing scheduled:
`isDetecting` and the button stay at running, and no cycle is pending. -/
theorem local_failure_ends_the_cycles :
    (run (initial "coco-ssd") cocoStarted).map
        (fun s => (s.isDetecting, s.cocoModel, s.tasks, activeCycles s))
      = some (true, true, [.cocoDetect], 1)
    ∧ (run (initial "coco-ssd") (cocoStarted ++ [.complete 0 .rejected])).map
        (fun s => (s.isDetecting, s.dom.btnRunning, s.tasks, activeCycles s, s.unhandled))
      = some (true, true, [], 0, 1) := by
  constructor <;> decide

/-- C10 fails on the code: when the remote call rejects, the debug text is the
communication-failed message only while `checkYoloServer` is pending; the
render of the empty result that ends the cycle replaces it by the
nothing-detected placeholder, whatever the state and the server's answer. -/
theorem failure_message_overwritten :
    (run (initial "yolov8") (yoloStarted ++ [.complete 0 .rejected])).map
        (fun s => (s.dom.debugText, s.tasks))
      = some ("YOLOv8サーバーとの通信に失敗しました。", [.yoloRecheck])
    ∧ (run (initial "yolov8")
        (yoloStarted ++ [.complete 0 .rejected, .complete 0 (.fetched .networkError)])).map
        (fun s => (s.dom.debugText, s.tasks))
      = some ("何も検出されていません...", [.timeout 250])
    ∧ ∀ (s : State) (fetched : FetchResult),
        (detectFrame_afterCatch fetched (detectFrame_catch s).1).1.dom.debugText
          = "何も検出されていません..." := by
  refine ⟨by decide, by decide, ?_⟩
  intro s fetched
  simp [detectFrame_afterCatch, renderPredictions_nil]

end Kuma
